import Mathlib

/-!
# SoundSense (`src/app.py`): a verified shallow embedding

This file embeds the core engine of the SoundSense audiobook recommender
(`src/app.py`) in Lean 4 and proves/refutes the specification's claims about
it.  The embedding follows the Python source line by line:

* `loadData`, `loadClean` — `load_data` (lines 17–70): column detection by
  case-insensitive substring, rating coercion, `dropna`, `drop_duplicates`
  on `(Book Name, Author)` keeping the first occurrence, `reset_index`.
* `vocab`, `idf`, `tfidfW`, `simDot`, `cosineSim` — `build_model`
  (lines 75–85): `TfidfVectorizer(stop_words="english", max_features=5000)`
  followed by `cosine_similarity`.
* `titleSeries`, `seriesDropDupVals`, `bookIndices`, `seriesLookup` — the
  `pd.Series(df.index, index=df["Book Name"].str.lower()).drop_duplicates()`
  title index and pandas label lookup.
* `recommendByBook` — `recommend_by_book` (lines 100–141).
* `hiddenGems` — `hidden_gems` (lines 144–167).
* `mainDispatch` — the page dispatch in `main` (lines 172–228).

Machine floats are modelled by `ℝ` (similarity scores) and `ℚ` (ratings,
review counts, slider values); `NaN` cells are modelled by `Option`.
-/

namespace SoundSense

/-! ## Data model -/

/-- One cell of the merged `pandas` data frame.  `na` models `NaN`/missing.
`pd.read_csv` already parses numeric text, so a numeric cell is carried as a
rational; `pd.to_numeric(..., errors="coerce")` sends everything else to
`NaN`. -/
inductive CellVal
  | num (q : ℚ)
  | str (s : String)
  | na
deriving DecidableEq

/-- The merged table produced by `pd.merge(df1, df2, on=["Book Name",
"Author"], how="inner")` in `load_data`: its column names and its rows (a row
maps a column name to a cell). -/
structure Table where
  cols : List String
  rows : List (String → CellVal)

/-- One cleaned catalog record, i.e. one row of the data frame returned by
`load_data` after column normalisation: `Book Name`, `Author`, the coerced
`Rating` (`none` models `NaN`), the `Description` after `fillna("")` /
default `""`, and the coerced `Reviews` (`none` when the column is absent or
the cell failed to parse). -/
structure Row where
  bookName : String
  author : String
  rating : Option ℚ
  description : String
  reviews : Option ℚ
deriving DecidableEq

/-! ## String helpers (Python `str.lower`, substring test) -/

/-- Python `str.lower()` on the ASCII column/title names used here. -/
def lowerString (s : String) : String := (s.data.map Char.toLower).asString

/-- `chIsPre n h` : the char list `n` is an initial segment of `h`
(Python `h.startswith(n)`). -/
def chIsPre : List Char → List Char → Bool
  | [], _ => true
  | _ :: _, [] => false
  | a :: as, b :: bs => a == b && chIsPre as bs

/-- `subAux n h` : `n` occurs as a contiguous substring of `h`. -/
def subAux (needle : List Char) : List Char → Bool
  | [] => needle.isEmpty
  | c :: cs => chIsPre needle (c :: cs) || subAux needle cs

/-- Python `needle in hay` on strings. -/
def containsSub (hay needle : String) : Bool := subAux needle.data hay.data

/-! ## Catalog loader (`load_data`, lines 17–70) -/

/-- Column detection in `load_data`: the first column whose lower-cased name
contains `needle` (`for c in df.columns: if needle in c.lower(): ...`). -/
def findColumn (cols : List String) (needle : String) : Option String :=
  cols.find? (fun c => containsSub (lowerString c) needle)

/-- `pd.to_numeric(cell, errors="coerce")`: numbers survive, everything else
becomes missing. -/
def toNumeric : CellVal → Option ℚ
  | .num q => some q
  | _ => none

/-- Reading a text cell with `fillna("")` semantics: a missing cell becomes
the empty string. -/
def cellStr : CellVal → String
  | .str s => s
  | _ => ""

/-- Build one `Row` from a table row, given the resolved rating, description
and reviews columns (lines 41–63 of `app.py`). -/
def extractRow (ratingCol : String) (descCol reviewsCol : Option String)
    (cell : String → CellVal) : Row where
  bookName := cellStr (cell "Book Name")
  author := cellStr (cell "Author")
  rating := toNumeric (cell ratingCol)
  description :=
    match descCol with
    | some d => cellStr (cell d)
    | none => ""
  reviews :=
    match reviewsCol with
    | some c => toNumeric (cell c)
    | none => none

/-- De-duplication key of a record (`subset=["Book Name", "Author"]`). -/
def rowKey (r : Row) : String × String := (r.bookName, r.author)

/-- `df.drop_duplicates(subset=["Book Name", "Author"])`: keep a row iff its
key was not seen on an earlier row. -/
def dedupKeysGo (seen : List (String × String)) : List Row → List Row
  | [] => []
  | r :: rs =>
    if rowKey r ∈ seen then dedupKeysGo seen rs
    else r :: dedupKeysGo (rowKey r :: seen) rs

/-- Lines 66–68 of `app.py`:
`df = df.dropna(subset=["Rating"])`,
`df = df.drop_duplicates(subset=["Book Name", "Author"])`,
`df = df.reset_index(drop=True)`.
Row ids are positions in the returned list, hence dense `0..N-1`. -/
def loadClean (rows : List Row) : List Row :=
  dedupKeysGo [] (rows.filter (fun r => r.rating.isSome))

/-- Outcome of `load_data`: `configError` models `st.error("Rating column
not found."); st.stop()` — a fatal halt exposing no records; `ok` returns
the cleaned frame and the detected reviews column (`return df, reviews_col`). -/
inductive LoadResult
  | configError
  | ok (recs : List Row) (reviewsCol : Option String)

/-- `load_data` after the merge (lines 30–70): detect the rating column
(fatal on failure), the optional description and reviews columns, build the
normalised rows, then clean. -/
def loadData (t : Table) : LoadResult :=
  match findColumn t.cols "rating" with
  | none => LoadResult.configError
  | some rc =>
      LoadResult.ok
        (loadClean (t.rows.map
          (extractRow rc (findColumn t.cols "desc") (findColumn t.cols "review"))))
        (findColumn t.cols "review")

/-! ## Vectorizer (`build_model`, lines 75–85)

`TfidfVectorizer(stop_words="english", max_features=5000)` with scikit-learn
defaults: token pattern `\w\w+` on the lower-cased text, English stop words
removed, vocabulary capped at the 5000 most frequent corpus terms, smoothed
idf `ln((1+n)/(1+df)) + 1`, raw term counts as tf.  The vectorizer's row
normalisation is absorbed into `cosineSim`, which normalises anyway (cosine
similarity is scale invariant, and a zero row stays zero in both). -/

/-- A `\w` word character of the default token pattern. -/
def isWordChar (c : Char) : Bool := c.isAlphanum || c == '_'

/-- Split a char list into maximal runs of word characters, keeping only
runs of length ≥ 2 (token pattern `(?u)\b\w\w+\b`).  `cur` holds the current
run, reversed. -/
def splitRuns : List Char → List Char → List (List Char)
  | cur, [] => if 2 ≤ cur.length then [cur.reverse] else []
  | cur, c :: cs =>
    if isWordChar c then splitRuns (c :: cur) cs
    else if 2 ≤ cur.length then cur.reverse :: splitRuns [] cs
    else splitRuns [] cs

/-- scikit-learn tokenization: lowercase, then extract `\w\w+` tokens. -/
def tokenize (s : String) : List String :=
  (splitRuns [] (s.data.map Char.toLower)).map List.asString

/-- The `stop_words="english"` list.  Abridged model of scikit-learn's
frozen `ENGLISH_STOP_WORDS`; none of the verified claims depends on the
exact contents of the list, only on stop words being removed before
vocabulary building. -/
def stopWords : List String :=
  ["a", "about", "above", "after", "again", "all", "also", "am", "among",
   "an", "and", "any", "are", "as", "at", "be", "because", "been", "before",
   "being", "below", "between", "both", "but", "by", "can", "could", "do",
   "down", "during", "each", "few", "for", "from", "further", "had", "has",
   "have", "he", "her", "here", "hers", "him", "his", "how", "if", "in",
   "into", "is", "it", "its", "more", "most", "my", "no", "nor", "not",
   "of", "off", "on", "once", "only", "or", "other", "our", "out", "over",
   "own", "same", "she", "should", "so", "some", "such", "than", "that",
   "the", "their", "them", "then", "there", "these", "they", "this",
   "those", "through", "to", "too", "under", "until", "up", "very", "was",
   "we", "were", "what", "when", "where", "which", "while", "who", "whom",
   "why", "will", "with", "would", "you", "your", "yours"]

/-- Tokens of one description, stop words removed. -/
def docTokens (d : String) : List String :=
  (tokenize d).filter (fun t => !(stopWords.contains t))

/-- All (non-stop) tokens of the corpus, in document order. -/
def corpusTokens (docs : List String) : List String :=
  (docs.map docTokens).flatten

/-- Distinct elements keeping the first occurrence of each. -/
def dedupFirstGo (seen : List String) : List String → List String
  | [] => []
  | t :: ts =>
    if seen.contains t then dedupFirstGo seen ts
    else t :: dedupFirstGo (t :: seen) ts

/-- Insert into a list sorted by descending `cnt`, after equal counts
(stable descending insertion). -/
def insertByCount (cnt : String → ℕ) (t : String) : List String → List String
  | [] => [t]
  | u :: us => if cnt u ≤ cnt t then t :: u :: us else u :: insertByCount cnt t us

/-- The vocabulary: distinct corpus terms ordered by descending corpus
frequency, truncated to `max_features=5000`.  (scikit-learn breaks frequency
ties alphabetically; first occurrence is used here — immaterial below the
cap, and no claim depends on which terms a binding cap would drop.) -/
def vocab (docs : List String) : List String :=
  (((dedupFirstGo [] (corpusTokens docs))).foldr
    (insertByCount (fun t => (corpusTokens docs).count t)) []).take 5000

/-- Document frequency of a term. -/
def dfCount (docs : List String) (t : String) : ℕ :=
  (docs.filter (fun d => (docTokens d).contains t)).length

/-- Smoothed inverse document frequency (`smooth_idf=True` default):
`ln((1 + n) / (1 + df)) + 1`. -/
noncomputable def idf (docs : List String) (t : String) : ℝ :=
  Real.log (((docs.length + 1 : ℕ) : ℝ) / ((dfCount docs t + 1 : ℕ) : ℝ)) + 1

/-- tf–idf weight of term `t` in document `i` (raw count times idf; an
out-of-range row index gives the zero vector). -/
noncomputable def tfidfW (docs : List String) (i : ℕ) (t : String) : ℝ :=
  ((docTokens (docs.getD i "")).count t : ℝ) * idf docs t

/-- Dot product of the tf–idf vectors of rows `i` and `j` over the
vocabulary coordinates. -/
noncomputable def simDot (docs : List String) (i j : ℕ) : ℝ :=
  ((vocab docs).map (fun t => tfidfW docs i t * tfidfW docs j t)).sum

/-- `cosine_similarity(tfidf_matrix)[i][j]`.  In Mathlib `x / 0 = 0`, which
matches scikit-learn: a zero tf–idf row has zero dot products, so its whole
similarity row is `0`. -/
noncomputable def cosineSim (docs : List String) (i j : ℕ) : ℝ :=
  simDot docs i j / (Real.sqrt (simDot docs i i) * Real.sqrt (simDot docs j j))

/-- The corpus fed to the vectorizer: `df["Description"]`. -/
def docsOf (recs : List Row) : List String := recs.map Row.description

/-! ## Title index (`build_model`, lines 81–85)

`indices = pd.Series(df.index, index=df["Book Name"].str.lower()).drop_duplicates()`.
A pandas Series is a list of (index label, value) pairs; labels may repeat.
`Series.drop_duplicates()` drops entries with duplicate *values* — here the
values are the distinct row ids, so nothing is ever dropped; duplicate
lower-cased titles keep all their entries. -/

/-- The raw series: (lower-cased title, row id) in row order. -/
def titleSeries (recs : List Row) : List (String × ℕ) :=
  recs.enum.map (fun p => (lowerString p.2.bookName, p.1))

/-- `Series.drop_duplicates()`: keep an entry iff its *value* was not seen
earlier. -/
def seriesDropDupVals : List (String × ℕ) → List ℕ → List (String × ℕ)
  | [], _ => []
  | p :: ps, seen =>
    if p.2 ∈ seen then seriesDropDupVals ps seen
    else p :: seriesDropDupVals ps (p.2 :: seen)

/-- The `indices` object returned by `build_model`. -/
def bookIndices (recs : List Row) : List (String × ℕ) :=
  seriesDropDupVals (titleSeries recs) []

/-- `indices[key]` as a pandas label lookup: all values whose index label
equals `key` (a scalar iff exactly one, a sub-Series otherwise).
`key in indices` is label membership, i.e. a non-empty lookup. -/
def seriesLookup (s : List (String × ℕ)) (key : String) : List ℕ :=
  (s.filter (fun p => p.1 = key)).map (fun p => p.2)

/-! ## Similarity query engine (`recommend_by_book`, lines 100–141) -/

/-- Descending-score order used by
`sorted(sim_scores, key=lambda x: x[1], reverse=True)`. -/
def scoreGe (a b : ℕ × ℝ) : Prop := b.2 ≤ a.2

noncomputable instance : DecidableRel scoreGe :=
  fun a b => inferInstanceAs (Decidable (b.2 ≤ a.2))

instance : IsTotal (ℕ × ℝ) scoreGe := ⟨fun a b => le_total b.2 a.2⟩

instance : IsTrans (ℕ × ℝ) scoreGe := ⟨fun _ _ _ h1 h2 => le_trans h2 h1⟩

/-- `list(enumerate(cosine_sim[idx]))`: all row indices paired with their
similarity to the seed row. -/
noncomputable def simRow (recs : List Row) (idx : ℕ) : List (ℕ × ℝ) :=
  (List.range recs.length).map (fun j => (j, cosineSim (docsOf recs) idx j))

/-- Python's `sorted` with `reverse=True` is a stable descending sort; a new
element goes in front of the first element whose score is ≤ its own, so
earlier-listed elements precede later ties, exactly as in CPython. -/
noncomputable def sortScores (l : List (ℕ × ℝ)) : List (ℕ × ℝ) :=
  List.insertionSort scoreGe l

/-- `df.loc[i, "Rating"]` on the cleaned frame (cleaned rows always carry
`some` rating; out-of-range defaults are never hit by the engine). -/
def ratingOf (recs : List Row) (i : ℕ) : ℚ :=
  ((recs[i]?.bind Row.rating).getD 0)

/-- Outcome of one `recommend_by_book` query.  `notFound` models
`st.error("Book not found."); return`; `ok seed results` carries the
resolved seed row id and the `(row id, score)` pairs that get displayed
(an empty list is the `st.warning` "no matches" outcome, not an error);
`fault` models the uncaught `ValueError` raised downstream when the title
lookup returns a multi-row sub-Series instead of a scalar. -/
inductive RecResult
  | notFound
  | fault
  | ok (seed : ℕ) (results : List (ℕ × ℝ))

/-- Lines 119–126 of `app.py`, after the title lookup:
`sim_scores = sorted(list(enumerate(cosine_sim[idx])), ..., reverse=True)`;
`results = [(i, s) for (i, s) in sim_scores[1:] if df.loc[i, "Rating"] >= min_rating][:5]`.
Note `sim_scores[1:]` drops the *first element of the sorted list*, not
necessarily the seed row. -/
noncomputable def recommendCore (recs : List Row) (minRating : ℚ) : List ℕ → RecResult
  | [] => RecResult.notFound
  | [idx] =>
      RecResult.ok idx
        ((((sortScores (simRow recs idx)).drop 1).filter
          (fun p => decide (minRating ≤ ratingOf recs p.1))).take 5)
  | _ => RecResult.fault

/-- `recommend_by_book`: lower-case the chosen title, look it up in
`indices` (`[]` = `key not in indices`), then rank, filter and truncate. -/
noncomputable def recommendByBook (recs : List Row) (selected : String)
    (minRating : ℚ) : RecResult :=
  recommendCore recs minRating (seriesLookup (bookIndices recs) (lowerString selected))

/-- Row ids of the displayed recommendations (`idxs = [i for i, _ in results]`). -/
def resultIds : RecResult → List ℕ
  | .ok _ results => results.map Prod.fst
  | _ => []

/-! ## Threshold query engine (`hidden_gems`, lines 144–167) -/

/-- The selection predicate of line 154–157:
`(df["Reviews"] <= max_reviews) & (df["Rating"] >= min_rating)`.
A `NaN` (missing) value compares false in pandas. -/
def gemsPred (maxReviews minRating : ℚ) (r : Row) : Bool :=
  (match r.reviews with
   | some v => decide (v ≤ maxReviews)
   | none => false) &&
  (match r.rating with
   | some w => decide (minRating ≤ w)
   | none => false)

/-- Rating sort key of a filtered row (filtered rows always carry `some`
rating). -/
def ratingKey (p : ℕ × Row) : ℚ := p.2.rating.getD 0

/-- Ascending-rating order underlying `sort_values("Rating")`. -/
def gemLe (a b : ℕ × Row) : Prop := ratingKey a ≤ ratingKey b

instance : DecidableRel gemLe :=
  fun a b => inferInstanceAs (Decidable (ratingKey a ≤ ratingKey b))

instance : IsTotal (ℕ × Row) gemLe := ⟨fun a b => le_total (ratingKey a) (ratingKey b)⟩

instance : IsTrans (ℕ × Row) gemLe := ⟨fun _ _ _ => le_trans⟩

/-- `df[pred].sort_values("Rating", ascending=False)`, keeping original row
ids.  pandas's boolean filter keeps original order; its descending sort
computes a stable *ascending* argsort and reverses it (`nargsort`), which is
what numpy's insertion sort also produces on small inputs — the default
`kind="quicksort"` guarantees no tie order at all. -/
def hiddenGems (recs : List Row) (maxReviews minRating : ℚ) : List (ℕ × Row) :=
  (List.insertionSort gemLe
    (recs.enum.filter (fun p => gemsPred maxReviews minRating p.2))).reverse

/-- The hidden-gems page body (lines 144–167): disabled with an
informational message when no reviews column was detected, otherwise the
filtered, rating-sorted frame driven by the page's own two sliders. -/
def hiddenGemsFlow (recs : List Row) (reviewsCol : Option String)
    (maxReviews minRating : ℚ) : Option (List (ℕ × Row)) :=
  match reviewsCol with
  | none => none
  | some _ => some (hiddenGems recs maxReviews minRating)

/-! ## Main page dispatch (`main`, lines 172–228) -/

/-- The sidebar radio selection. -/
inductive Page
  | recommendation
  | gems
  | about
deriving DecidableEq

/-- What a page renders (the engine-relevant payload). -/
inductive PageOutput
  | recOut (r : RecResult)
  | gemsOut (g : Option (List (ℕ × Row)))
  | aboutOut

/-- Lines 201–212 of `app.py`: the sidebar's global `Minimum rating filter`
is passed to `recommend_by_book` only; `hidden_gems(df, reviews_col)` reads
its own local `max_reviews` / `min_rating` sliders. -/
noncomputable def mainDispatch (recs : List Row) (reviewsCol : Option String)
    (page : Page) (globalRating : ℚ) (selected : String)
    (gemsMaxReviews gemsMinRating : ℚ) : PageOutput :=
  match page with
  | .recommendation => PageOutput.recOut (recommendByBook recs selected globalRating)
  | .gems => PageOutput.gemsOut (hiddenGemsFlow recs reviewsCol gemsMaxReviews gemsMinRating)
  | .about => PageOutput.aboutOut

/-! ## Concrete corpora used by counterexamples and witnesses -/

/-- A record with a present rating. -/
def exRow (t a : String) (r : ℚ) (d : String) (rev : Option ℚ) : Row :=
  ⟨t, a, some r, d, rev⟩

/-- Two records with *identical descriptions* (and distinct titles): the
seed "Beta" ties its own self-similarity 1.0 with row 0. -/
def exRecs1 : List Row :=
  [exRow "Alpha" "Ann" 4 "spy thriller" none,
   exRow "Beta" "Bob" 4 "spy thriller" none]

/-- Three records where the seed "Beta" has an *empty description* (zero
tf–idf vector), so its whole similarity row is 0. -/
def exRecs2 : List Row :=
  [exRow "Alpha" "Ann" 4 "spy thriller" none,
   exRow "Beta" "Bob" 4 "" none,
   exRow "Gamma" "Cy" 4 "spy thriller" none]

/-- Two distinct records sharing the same title with different authors:
both survive `(title, author)` de-duplication and collide in the title
index. -/
def exRecsT : List Row :=
  [exRow "Alpha" "Xavier" 4 "" none,
   exRow "Alpha" "Yann" 4 "" none]

/-- A merged table with no rating-like column. -/
def exTable : Table := ⟨["Book Name", "Author", "Price"], []⟩

/-- Raw rows for the cleaning pipeline: an unparseable rating (row 1) and a
duplicate `(title, author)` pair (row 2). -/
def exRawRows : List Row :=
  [exRow "Alpha" "Xavier" 4 "" none,
   ⟨"Beta", "Yann", none, "", none⟩,
   exRow "Alpha" "Xavier" 5 "" none]

/-! ## Helper lemmas about the similarity matrix -/

/-- The tf–idf dot product is symmetric in its two row indices. -/
theorem simDot_comm (docs : List String) (i j : ℕ) :
    simDot docs i j = simDot docs j i := by
  unfold simDot
  suffices h : ∀ L : List String,
      (L.map fun t => tfidfW docs i t * tfidfW docs j t).sum =
      (L.map fun t => tfidfW docs j t * tfidfW docs i t).sum from h _
  intro L
  induction L with
  | nil => rfl
  | cons a L ih => simp only [List.map_cons, List.sum_cons, ih, mul_comm]

/-- A self dot product is a sum of squares, hence nonnegative. -/
theorem simDot_self_nonneg (docs : List String) (i : ℕ) : 0 ≤ simDot docs i i := by
  unfold simDot
  apply List.sum_nonneg
  intro x hx
  obtain ⟨t, _, rfl⟩ := List.mem_map.mp hx
  exact mul_self_nonneg _

/-- A vanishing self dot product forces every vocabulary coordinate of the
row's tf–idf vector to vanish. -/
theorem weights_zero_of_selfDot (docs : List String) (i : ℕ)
    (h : simDot docs i i = 0) : ∀ t ∈ vocab docs, tfidfW docs i t = 0 := by
  unfold simDot at h
  suffices haux : ∀ L : List String,
      (L.map fun t => tfidfW docs i t * tfidfW docs i t).sum = 0 →
      ∀ t ∈ L, tfidfW docs i t = 0 from haux _ h
  intro L
  induction L with
  | nil => simp
  | cons a L ih =>
    intro hsum t ht
    simp only [List.map_cons, List.sum_cons] at hsum
    have h1 : 0 ≤ tfidfW docs i a * tfidfW docs i a := mul_self_nonneg _
    have h2 : 0 ≤ (L.map fun t => tfidfW docs i t * tfidfW docs i t).sum := by
      apply List.sum_nonneg
      intro x hx
      obtain ⟨u, _, rfl⟩ := List.mem_map.mp hx
      exact mul_self_nonneg _
    rcases List.mem_cons.mp ht with rfl | ht'
    · exact mul_self_eq_zero.mp (by linarith)
    · exact ih (by linarith) t ht'

/-- A row whose tf–idf vector vanishes on the vocabulary has a vanishing dot
product with every row. -/
theorem simDot_zero_of_weights (docs : List String) (i : ℕ)
    (h : ∀ t ∈ vocab docs, tfidfW docs i t = 0) (j : ℕ) : simDot docs i j = 0 := by
  unfold simDot
  apply List.sum_eq_zero
  intro x hx
  obtain ⟨t, ht, rfl⟩ := List.mem_map.mp hx
  rw [h t ht, zero_mul]

/-- A zero tf–idf row gives a zero similarity row. -/
theorem cosine_row_zero (docs : List String) (i : ℕ)
    (h : simDot docs i i = 0) (j : ℕ) : cosineSim docs i j = 0 := by
  unfold cosineSim
  rw [simDot_zero_of_weights docs i (weights_zero_of_selfDot docs i h) j, zero_div]

/-- A nonzero tf–idf row has self-similarity exactly `1`. -/
theorem cosine_self_one (docs : List String) (i : ℕ)
    (h : simDot docs i i ≠ 0) : cosineSim docs i i = 1 := by
  unfold cosineSim
  rw [Real.mul_self_sqrt (simDot_self_nonneg docs i)]
  exact div_self h

/-- An empty description tokenizes to nothing, so all its tf–idf weights
vanish. -/
theorem tfidfW_of_empty (docs : List String) (i : ℕ)
    (h : docs.getD i "" = "") (t : String) : tfidfW docs i t = 0 := by
  unfold tfidfW
  rw [h, show docTokens "" = [] from rfl, List.count_nil, Nat.cast_zero, zero_mul]

/-- An empty description yields a zero similarity row. -/
theorem zero_row_of_empty (docs : List String) (i : ℕ)
    (h : docs.getD i "" = "") (j : ℕ) : cosineSim docs i j = 0 :=
  cosine_row_zero docs i
    (simDot_zero_of_weights docs i (fun t _ => tfidfW_of_empty docs i h t) i) j

/-! ## C8, C9: similarity matrix shape -/

/-- C8: for every built similarity index over any record set, the matrix is
symmetric: `S[i][j] = S[j][i]` for all row indices. -/
theorem similarity_symmetric (recs : List Row) (i j : ℕ) :
    cosineSim (docsOf recs) i j = cosineSim (docsOf recs) j i := by
  unfold cosineSim
  rw [simDot_comm (docsOf recs) i j, mul_comm]

/-- C9: every diagonal entry `S[i][i]` equals `1`, unless row `i`'s tf–idf
vector is the zero vector (vanishing self dot product), in which case the
whole row `S[i][·]` is `0`; and an empty description yields such a zero
vector, hence a zero row. -/
theorem similarity_diag (recs : List Row) (i : ℕ) :
    ((simDot (docsOf recs) i i ≠ 0 ∧ cosineSim (docsOf recs) i i = 1) ∨
     (simDot (docsOf recs) i i = 0 ∧ ∀ j, cosineSim (docsOf recs) i j = 0)) ∧
    ((docsOf recs).getD i "" = "" → ∀ j, cosineSim (docsOf recs) i j = 0) := by
  constructor
  · by_cases h : simDot (docsOf recs) i i = 0
    · exact Or.inr ⟨h, cosine_row_zero _ i h⟩
    · exact Or.inl ⟨h, cosine_self_one _ i h⟩
  · intro h j
    exact zero_row_of_empty _ i h j

/-- C9 witness: in `exRecs2` record 1 ("Beta") has an empty description and
indeed `S[1][0] = 0`. -/
theorem similarity_diag_witness : cosineSim (docsOf exRecs2) 1 0 = 0 :=
  (similarity_diag exRecs2 1).2 rfl 0

/-! ## C5: cleaning pipeline invariants -/

/-- Every row surviving `dedupKeysGo` comes from the input list. -/
theorem dedupKeysGo_subset :
    ∀ (rows : List Row) (seen : List (String × String)) (r : Row),
      r ∈ dedupKeysGo seen rows → r ∈ rows := by
  intro rows
  induction rows with
  | nil => intro seen r h; simp [dedupKeysGo] at h
  | cons a rows ih =>
    intro seen r h
    unfold dedupKeysGo at h
    by_cases hk : rowKey a ∈ seen
    · rw [if_pos hk] at h
      exact List.mem_cons_of_mem _ (ih seen r h)
    · rw [if_neg hk] at h
      rcases List.mem_cons.mp h with rfl | h'
      · exact List.mem_cons_self _ _
      · exact List.mem_cons_of_mem _ (ih _ r h')

/-- No row surviving `dedupKeysGo` has a key that was already seen. -/
theorem dedupKeysGo_not_seen :
    ∀ (rows : List Row) (seen : List (String × String)) (r : Row),
      r ∈ dedupKeysGo seen rows → rowKey r ∉ seen := by
  intro rows
  induction rows with
  | nil => intro seen r h; simp [dedupKeysGo] at h
  | cons a rows ih =>
    intro seen r h
    unfold dedupKeysGo at h
    by_cases hk : rowKey a ∈ seen
    · rw [if_pos hk] at h
      exact ih seen r h
    · rw [if_neg hk] at h
      rcases List.mem_cons.mp h with rfl | h'
      · exact hk
      · intro hs
        exact ih _ r h' (List.mem_cons_of_mem _ hs)

/-- `dedupKeysGo` output has pairwise distinct keys. -/
theorem dedupKeysGo_pairwise :
    ∀ (rows : List Row) (seen : List (String × String)),
      (dedupKeysGo seen rows).Pairwise (fun a b => rowKey a ≠ rowKey b) := by
  intro rows
  induction rows with
  | nil => intro seen; simp [dedupKeysGo]
  | cons a rows ih =>
    intro seen
    unfold dedupKeysGo
    by_cases hk : rowKey a ∈ seen
    · rw [if_pos hk]
      exact ih seen
    · rw [if_neg hk]
      refine List.Pairwise.cons ?_ (ih _)
      intro b hb hab
      exact dedupKeysGo_not_seen rows _ b hb (hab ▸ List.mem_cons_self _ _)

/-- C5: after cleaning, every surviving record has a present (parsed)
rating, and no two surviving records share the same `(title, author)` key;
row ids are the positions in the returned list, hence dense `0..N-1`. -/
theorem load_clean_invariants (rows : List Row) :
    (∀ r ∈ loadClean rows, r.rating.isSome = true) ∧
    (loadClean rows).Pairwise (fun a b => rowKey a ≠ rowKey b) := by
  constructor
  · intro r hr
    have hmem : r ∈ rows.filter (fun r => r.rating.isSome) :=
      dedupKeysGo_subset _ [] r hr
    exact (List.mem_filter.mp hmem).2
  · exact dedupKeysGo_pairwise _ []

/-- C5 witness: on `exRawRows` the surviving record is the first "Alpha"
row, and its rating is present. -/
theorem load_clean_invariants_witness :
    (exRow "Alpha" "Xavier" 4 "" none).rating.isSome = true :=
  (load_clean_invariants exRawRows).1 _ (by decide)

/-! ## C6: unknown seed title -/

/-- C6: when the lower-cased seed title is not a label of the title index,
`recommend_by_book` signals not-found and returns no records (the engine is
pure, so the index is untouched). -/
theorem recommend_not_found (recs : List Row) (selected : String) (minRating : ℚ)
    (h : ∀ p ∈ bookIndices recs, p.1 ≠ lowerString selected) :
    recommendByBook recs selected minRating = RecResult.notFound := by
  unfold recommendByBook
  have hl : seriesLookup (bookIndices recs) (lowerString selected) = [] := by
    unfold seriesLookup
    rw [List.filter_eq_nil_iff.mpr ?_, List.map_nil]
    intro p hp
    simpa using h p hp
  rw [hl]
  rfl

/-- C6 witness: "unknown title" resolves to nothing on `exRecs1`. -/
theorem recommend_not_found_witness :
    recommendByBook exRecs1 "unknown title" 0 = RecResult.notFound :=
  recommend_not_found exRecs1 "unknown title" 0 (by decide)

/-! ## C7: fatal configuration error -/

/-- C7: loading halts with the fatal configuration error exactly when no
column name contains the case-insensitive substring "rating" — so a missing
description-like or review-like column is never fatal, and no record set is
exposed on the fatal path. -/
theorem load_rating_column_fatal (t : Table) :
    loadData t = LoadResult.configError ↔
      ∀ c ∈ t.cols, containsSub (lowerString c) "rating" = false := by
  unfold loadData
  cases h : findColumn t.cols "rating" with
  | none =>
    simp only [true_iff]
    intro c hc
    have := List.find?_eq_none.mp h c hc
    simpa using this
  | some rc =>
    constructor
    · intro hcontra
      exact absurd hcontra (by simp)
    · intro hall
      have hmem := List.mem_of_find?_eq_some h
      have hpred := List.find?_some h
      rw [hall rc hmem] at hpred
      cases hpred

/-- C7 witness: a merged table whose columns are
`["Book Name", "Author", "Price"]` halts with the configuration error. -/
theorem load_rating_column_fatal_witness :
    loadData exTable = LoadResult.configError :=
  (load_rating_column_fatal exTable).mpr (by decide)

/-! ## C10: the global rating slider does not reach hidden gems -/

/-- C10: the hidden-gems page output is a function of the snapshot, the
reviews-column flag and its own two sliders only; two runs differing solely
in the sidebar's global minimum-rating value render identical results. -/
theorem hidden_gems_global_independent (recs : List Row) (reviewsCol : Option String)
    (g1 g2 : ℚ) (selected : String) (maxReviews minRating : ℚ) :
    mainDispatch recs reviewsCol Page.gems g1 selected maxReviews minRating =
    mainDispatch recs reviewsCol Page.gems g2 selected maxReviews minRating := rfl

/-! ## C3: hidden gems — filter, order, ties -/

/-- The vocabulary of the two-document corpus. -/
theorem exRecs1_vocab : vocab (docsOf exRecs1) = ["spy", "thriller"] := by decide

/-- Both documents of `exRecs1` are the same string. -/
theorem exRecs1_doc (i : ℕ) (hi : i < 2) :
    (docsOf exRecs1).getD i "" = "spy thriller" := by
  interval_cases i <;> rfl

/-- With 2 documents and document frequency 2, the smoothed idf is
`ln(3/3) + 1 = 1`. -/
theorem exRecs1_idf_spy : idf (docsOf exRecs1) "spy" = 1 := by
  unfold idf
  rw [show dfCount (docsOf exRecs1) "spy" = 2 from by decide,
    show (docsOf exRecs1).length = 2 from rfl]
  norm_num [Real.log_one]

/-- Same computation for the second term. -/
theorem exRecs1_idf_thr : idf (docsOf exRecs1) "thriller" = 1 := by
  unfold idf
  rw [show dfCount (docsOf exRecs1) "thriller" = 2 from by decide,
    show (docsOf exRecs1).length = 2 from rfl]
  norm_num [Real.log_one]

/-- Both tf–idf rows of `exRecs1` coincide coordinatewise. -/
theorem exRecs1_w (i : ℕ) (hi : i < 2) (t : String) :
    tfidfW (docsOf exRecs1) i t =
      ((docTokens "spy thriller").count t : ℝ) * idf (docsOf exRecs1) t := by
  unfold tfidfW
  rw [exRecs1_doc i hi]

/-- Every dot product between rows of `exRecs1` equals `1·1 + 1·1 = 2`. -/
theorem exRecs1_simdot (i j : ℕ) (hi : i < 2) (hj : j < 2) :
    simDot (docsOf exRecs1) i j = 2 := by
  unfold simDot
  rw [exRecs1_vocab]
  simp only [List.map_cons, List.map_nil, List.sum_cons, List.sum_nil,
    exRecs1_w i hi, exRecs1_w j hj, exRecs1_idf_spy, exRecs1_idf_thr]
  norm_num [show (docTokens "spy thriller").count "spy" = 1 from by decide,
    show (docTokens "spy thriller").count "thriller" = 1 from by decide]

/-- Identical descriptions give similarity exactly `1` — including the
off-diagonal entries of `exRecs1`. -/
theorem exRecs1_cos (i j : ℕ) (hi : i < 2) (hj : j < 2) :
    cosineSim (docsOf exRecs1) i j = 1 := by
  unfold cosineSim
  rw [exRecs1_simdot i j hi hj, exRecs1_simdot i i hi hi, exRecs1_simdot j j hj hj,
    Real.mul_self_sqrt (by norm_num : (0:ℝ) ≤ 2)]
  norm_num

/-- The enumerated similarity row of the seed "Beta" (row 1) in `exRecs1`. -/
theorem exRecs1_simRow : simRow exRecs1 1 = [(0, 1), (1, 1)] := by
  unfold simRow
  rw [show exRecs1.length = 2 from rfl, show List.range 2 = [0, 1] from rfl]
  simp only [List.map_cons, List.map_nil]
  rw [exRecs1_cos 1 0 (by norm_num) (by norm_num), exRecs1_cos 1 1 (by norm_num) (by norm_num)]

/-- The stable descending sort keeps the tied pairs in original order. -/
theorem sort_two_ones : sortScores [((0:ℕ), (1:ℝ)), (1, 1)] = [(0, 1), (1, 1)] := by
  unfold sortScores
  simp [List.insertionSort, List.orderedInsert, scoreGe]

/-- Full evaluation of `recommend_by_book` on `exRecs1` with seed "Beta":
the sorted row is `[(0,1), (1,1)]`, `sim_scores[1:]` drops row 0 (not the
seed!), and the seed row 1 survives filter and truncation. -/
theorem exRecs1_eval : recommendByBook exRecs1 "Beta" 0 = RecResult.ok 1 [(1, 1)] := by
  unfold recommendByBook
  rw [show seriesLookup (bookIndices exRecs1) (lowerString "Beta") = [1] from by decide]
  simp only [recommendCore]
  rw [exRecs1_simRow, sort_two_ones]
  rfl

/-- Row 1 of `exRecs2` has an empty description, hence a zero similarity
row. -/
theorem exRecs2_row1 (j : ℕ) : cosineSim (docsOf exRecs2) 1 j = 0 :=
  zero_row_of_empty (docsOf exRecs2) 1 (by rfl) j

/-- The enumerated similarity row of the seed "Beta" (row 1) in `exRecs2`. -/
theorem exRecs2_simRow : simRow exRecs2 1 = [(0, 0), (1, 0), (2, 0)] := by
  unfold simRow
  rw [show exRecs2.length = 3 from rfl, show List.range 3 = [0, 1, 2] from rfl]
  simp only [List.map_cons, List.map_nil, exRecs2_row1]

/-- Sorting an all-tied row is the identity (stability). -/
theorem sort_three_zeros :
    sortScores [((0:ℕ), (0:ℝ)), (1, 0), (2, 0)] = [(0, 0), (1, 0), (2, 0)] := by
  unfold sortScores
  simp [List.insertionSort, List.orderedInsert, scoreGe]

/-- Full evaluation of `recommend_by_book` on `exRecs2` with seed "Beta":
all similarities from the zero-vector seed are 0; `sim_scores[1:]` drops the
*eligible* row 0 while keeping the seed row 1. -/
theorem exRecs2_eval :
    recommendByBook exRecs2 "Beta" 0 = RecResult.ok 1 [(1, 0), (2, 0)] := by
  unfold recommendByBook
  rw [show seriesLookup (bookIndices exRecs2) (lowerString "Beta") = [1] from by decide]
  simp only [recommendCore]
  rw [exRecs2_simRow, sort_three_zeros]
  rfl

/-! ## C1: the seed can appear in its own recommendations -/

/-- C1: the claim fails on the code.  In `exRecs1` the seed "Beta" resolves
to row 1, whose similarity row ties at the maximum `1.0` with row 0; the
code's `sim_scores[1:]` drops the first *sorted* element (row 0), so the
returned id list `[1]` contains the seed itself.  The spec's stated intent
("exclude the seed row itself") is clear, and `sim_scores[1:]` only realises
it when the seed happens to sort first — a code bug. -/
theorem recommend_contains_seed :
    seriesLookup (bookIndices exRecs1) (lowerString "Beta") = [1] ∧
    resultIds (recommendByBook exRecs1 "Beta" 0) = [1] := by
  refine ⟨by decide, ?_⟩
  rw [exRecs1_eval]
  rfl

/-! ## C2: duplicate lower-cased titles are not shadowed -/

/-- C2: the claim fails on the code.  `pd.Series.drop_duplicates()` drops
entries with duplicate *values* — the values here are the distinct row ids,
so it never drops anything.  On `exRecsT` (two records titled "Alpha" by
different authors) the title index keeps both entries, the title-only lookup
`indices["alpha"]` yields the two-element sub-Series `[0, 1]` instead of the
first occurrence's row id, and `recommend_by_book` then faults on the
non-scalar `idx`.  The `.drop_duplicates()` call and the spec agree on the
intent (shadow later collisions); the code as written is a no-op — a code
bug. -/
theorem title_index_keeps_duplicates :
    seriesLookup (bookIndices exRecsT) "alpha" = [0, 1] ∧
    recommendByBook exRecsT "Alpha" 0 = RecResult.fault := by
  refine ⟨by decide, ?_⟩
  unfold recommendByBook
  rw [show seriesLookup (bookIndices exRecsT) (lowerString "Alpha") = [0, 1] from by decide]
  rfl

/-! ## C4: filter after sort, truncation — and what "candidates" really are -/

/-- C4 counterexample: on `exRecs2` the seed "Beta" resolves to row 1 and
every candidate ties at similarity 0, yet the returned ids are `[1, 2]`:
the ineligible seed row 1 is returned while the eligible row 0 (equally
similar, rating 4 ≥ 0) is not — the result is *not* the `k` most-similar
eligible items, because `sim_scores[1:]` removed the first sorted element
rather than the seed. -/
theorem recommend_not_most_similar_eligible :
    seriesLookup (bookIndices exRecs2) (lowerString "Beta") = [1] ∧
    resultIds (recommendByBook exRecs2 "Beta" 0) = [1, 2] := by
  refine ⟨by decide, ?_⟩
  rw [exRecs2_eval]
  rfl

/-- C4 (amended): whenever `recommend_by_book` succeeds, its result is
obtained by sorting all candidate pairs descending by similarity, dropping
the *first element of the sorted list* (the seed only when it sorts first),
filtering by `rating ≥ minRating` and truncating to at most 5 — hence every
returned record passes the rating floor, at most 5 are returned (fewer
survivors give a shorter, non-error result), and scores are non-increasing. -/
theorem recommend_filter_after_sort (recs : List Row) (selected : String)
    (minRating : ℚ) (idx : ℕ) (l : List (ℕ × ℝ))
    (h : recommendByBook recs selected minRating = RecResult.ok idx l) :
    l = (((sortScores (simRow recs idx)).drop 1).filter
        (fun p => decide (minRating ≤ ratingOf recs p.1))).take 5 ∧
    (∀ p ∈ l, minRating ≤ ratingOf recs p.1) ∧
    l.length ≤ 5 ∧
    l.Pairwise (fun a b => b.2 ≤ a.2) := by
  unfold recommendByBook at h
  rcases hs : seriesLookup (bookIndices recs) (lowerString selected) with _ | ⟨i, rest⟩
  · rw [hs] at h
    simp only [recommendCore] at h
    cases h
  · rcases rest with _ | ⟨i2, rest2⟩
    · rw [hs] at h
      simp only [recommendCore, RecResult.ok.injEq] at h
      obtain ⟨rfl, rfl⟩ := h
      refine ⟨rfl, ?_, ?_, ?_⟩
      · intro p hp
        have hp' := (List.take_sublist _ _).subset hp
        exact of_decide_eq_true (List.mem_filter.mp hp').2
      · rw [List.length_take]
        exact min_le_left _ _
      · have hsorted : (sortScores (simRow recs i)).Pairwise scoreGe :=
          List.sorted_insertionSort scoreGe _
        have hsub : ((((sortScores (simRow recs i)).drop 1).filter
            (fun p => decide (minRating ≤ ratingOf recs p.1))).take 5).Sublist
            (sortScores (simRow recs i)) :=
          ((List.take_sublist 5 _).trans (List.filter_sublist _)).trans
            (List.drop_sublist 1 _)
        exact List.Pairwise.sublist hsub hsorted
    · rw [hs] at h
      rw [show recommendCore recs minRating (i :: i2 :: rest2) = RecResult.fault from rfl] at h
      cases h

/-- C4 witness: instantiated on `exRecs2` with seed "Beta", the returned
pair `(1, 0)` passes the rating floor `0`. -/
theorem recommend_filter_after_sort_witness : (0 : ℚ) ≤ ratingOf exRecs2 1 :=
  (recommend_filter_after_sort exRecs2 "Beta" 0 1 [(1, 0), (2, 0)] exRecs2_eval).2.1
    (1, 0) (List.mem_cons_self _ _)

end SoundSense
